import Mathlib

/-!
Shallow embedding of `arc_reference` (src/lib.rs): owning references into
reference-counted allocations.  The crate defines, via one macro expanded twice
(`Rc` and `Arc`), a structure holding a counted owner handle together with a raw
non-null pointer to a target inside the owner, plus a short-lived context for
minting several such references from one borrow of the owner.

The embedding models the counted-allocation primitive as an explicit heap: each
allocation id carries its current strong count and the stored owner value, and
is reclaimed (`none`) exactly when the count reaches zero.  A counted handle is
the id of its allocation; a Rust reference (and the raw pointer cast from it) is
an address, modelled as the pair of the base allocation id and the offset
computation from the owner value to the target value (the owner's memory block
is stable and immutable, so an address into it is determined by the allocation
and that projection).  Reading through a pointer is defined exactly when its
base allocation is still live, which models validity of the access.
-/

namespace ArcRef

/-- A reference-counted heap: allocation id to current strong count and stored
owner value; `none` means reclaimed or never allocated.  This is the
shared-ownership primitive (`Rc`/`Arc`) the crate builds on. -/
structure Heap (O : Type) where
  cells : Nat → Option (Nat × O)

/-- Reading the value currently stored in allocation `a` (what dereferencing a
live counted handle sees). -/
def Heap.lookup {O : Type} (h : Heap O) (a : Nat) : Option O :=
  (h.cells a).map Prod.snd

/-- The current strong count of allocation `a` (0 if reclaimed/absent). -/
def Heap.count {O : Type} (h : Heap O) (a : Nat) : Nat :=
  ((h.cells a).map Prod.fst).getD 0

/-- Effect of `Rc::clone`/`Arc::clone` on a handle to allocation `a`: the
strong count is incremented; the stored value is untouched. -/
def Heap.incr {O : Type} (h : Heap O) (a : Nat) : Heap O :=
  ⟨fun x => if x = a then (h.cells a).map (fun cv => (cv.1 + 1, cv.2)) else h.cells x⟩

/-- Effect of dropping a handle to allocation `a`: the strong count is
decremented, and when it reaches zero the allocation is reclaimed. -/
def Heap.decr {O : Type} (h : Heap O) (a : Nat) : Heap O :=
  ⟨fun x =>
    if x = a then
      (h.cells a).bind (fun cv => if cv.1 ≤ 1 then none else some (cv.1 - 1, cv.2))
    else h.cells x⟩

/-- Dropping `n` handles to allocation `a`, one after the other. -/
def Heap.decrN {O : Type} (h : Heap O) (a : Nat) : Nat → Heap O
  | 0 => h
  | n + 1 => (h.decrN a n).decr a

/-- A raw pointer to an `R` derived from an `O`-allocation: either null or an
address (base allocation plus offset computation).  Casting a Rust reference
`&R` to `*const R` always produces an address, never null. -/
inductive RawPtr (O R : Type) where
  | null
  | addr (base : Nat) (off : O → R)

/-- The cast `r as *const R as *mut R` applied to a reference: a reference is an
address, so the resulting raw pointer is never null. -/
def refAsRawPtr {O R : Type} (r : Nat × (O → R)) : RawPtr O R :=
  RawPtr.addr r.1 r.2

/-- Model of `NonNull::new_unchecked`: defined (`some`) exactly on non-null
pointers; `none` models the violated-precondition (undefined-behaviour) case. -/
def nonNullNewUnchecked {O R : Type} : RawPtr O R → Option (Nat × (O → R))
  | RawPtr.null => none
  | RawPtr.addr b o => some (b, o)

/-- `RcReference<O, R>` from the macro expansion with `Rc`: a counted owner
handle (`inner`, one strong count of its allocation) and the captured raw
address of the target (`ptr`). -/
structure RcReference (O : Type) (R : Type) where
  inner : Nat
  ptr : Nat × (O → R)

/-- `RcReference::new(inner, f)`: evaluates the projection `f` once against the
owner behind `inner`, capturing the address it returns (an address into the
`inner` allocation, at offset `f`), then moves the handle into the result.
`NonNull::new_unchecked` on that reference-derived pointer always succeeds (see
`nonNullNewUnchecked`); no count is touched because the handle is moved in. -/
def RcReference.new {O R : Type} (inner : Nat) (f : O → R) : RcReference O R :=
  { ptr := (inner, f), inner := inner }

/-- The arguments the projection is applied to during `RcReference::new` on a
heap `h` with owner handle `inner`: the source body contains the single call
`f(&inner)`, so the projection is invoked exactly once, on the stored owner's
current value. -/
def RcReference.newProjArgs {O : Type} (h : Heap O) (inner : Nat) : List O :=
  (h.lookup inner).toList

/-- `RcReference::source(&self) -> &Rc<O>`: returns a borrow of the stored
owner handle (its allocation id).  The heap is returned unchanged because the
body `&self.inner` performs no clone and touches no count. -/
def RcReference.source {O R : Type} (h : Heap O) (r : RcReference O R) : Heap O × Nat :=
  (h, r.inner)

/-- `Clone for RcReference`: clones the owner handle (incrementing the count of
its allocation) and copies the stored address unchanged. -/
def RcReference.clone {O R : Type} (h : Heap O) (r : RcReference O R) :
    Heap O × RcReference O R :=
  (h.incr r.inner, { inner := r.inner, ptr := r.ptr })

/-- `Deref for RcReference`: reads the memory behind the stored raw pointer.
Defined exactly when the pointed-to allocation is live, in which case it yields
the offset computation applied to the stored owner value. -/
def RcReference.deref {O R : Type} (h : Heap O) (r : RcReference O R) : Option R :=
  (h.lookup r.ptr.1).map r.ptr.2

/-- `AsRef<R> for RcReference`: `&*self`, the same read as `Deref`. -/
def RcReference.as_ref {O R : Type} (h : Heap O) (r : RcReference O R) : Option R :=
  RcReference.deref h r

/-- `Display for RcReference`: delegates to the target's own formatter `d`
applied to the dereferenced target. -/
def RcReference.display {O R : Type} (h : Heap O) (r : RcReference O R)
    (d : R → String) : Option String :=
  (RcReference.deref h r).map d

/-- `Debug for RcReference`: delegates to the target's own debug formatter. -/
def RcReference.debugFmt {O R : Type} (h : Heap O) (r : RcReference O R)
    (d : R → String) : Option String :=
  (RcReference.deref h r).map d

/-- `RcMultipleContext<'a, T>`: a borrow of one counted owner handle, used to
mint several references in one body. -/
structure RcMultipleContext (O : Type) where
  inner : Nat

/-- `RcMultipleContext::new_reference(&self, r)`: stores the address of the
caller-supplied sub-reference `r` (non-null, see `nonNullNewUnchecked`) and a
fresh clone of the context's owner handle, incrementing that allocation's
count. -/
def RcMultipleContext.new_reference {O R : Type} (ctx : RcMultipleContext O)
    (h : Heap O) (r : Nat × (O → R)) : Heap O × RcReference O R :=
  (h.incr ctx.inner, { ptr := r, inner := ctx.inner })

/-- `rc_multiple(arc, f)`: applies the body `f` to a context bound to the
borrowed handle and to the direct reference to the owner's value (the address
of the whole owner, identity offset).  The body may thread the heap through its
own `new_reference` calls and returns an arbitrary result.  Defined whenever
the borrowed handle is live, which holding `&Rc<T>` guarantees. -/
def rc_multiple {O R : Type} (h : Heap O) (a : Nat)
    (f : RcMultipleContext O → (Nat × (O → O)) → Heap O → Heap O × R) :
    Option (Heap O × R) :=
  (h.lookup a).map fun _ => f { inner := a } (a, fun o => o) h

/-- `ArcReference<O, R>` from the macro expansion with `Arc`: textually the same
definition as `RcReference`, with the thread-safe counting primitive. -/
structure ArcReference (O : Type) (R : Type) where
  inner : Nat
  ptr : Nat × (O → R)

/-- `ArcReference::new`: same body as `RcReference::new`. -/
def ArcReference.new {O R : Type} (inner : Nat) (f : O → R) : ArcReference O R :=
  { ptr := (inner, f), inner := inner }

/-- Projection-argument trace of `ArcReference::new`, as for `RcReference`. -/
def ArcReference.newProjArgs {O : Type} (h : Heap O) (inner : Nat) : List O :=
  (h.lookup inner).toList

/-- `ArcReference::source`: borrow of the stored owner handle, no count change. -/
def ArcReference.source {O R : Type} (h : Heap O) (r : ArcReference O R) : Heap O × Nat :=
  (h, r.inner)

/-- `Clone for ArcReference`: clone the handle, copy the address. -/
def ArcReference.clone {O R : Type} (h : Heap O) (r : ArcReference O R) :
    Heap O × ArcReference O R :=
  (h.incr r.inner, { inner := r.inner, ptr := r.ptr })

/-- `Deref for ArcReference`: read through the stored pointer. -/
def ArcReference.deref {O R : Type} (h : Heap O) (r : ArcReference O R) : Option R :=
  (h.lookup r.ptr.1).map r.ptr.2

/-- `AsRef<R> for ArcReference`. -/
def ArcReference.as_ref {O R : Type} (h : Heap O) (r : ArcReference O R) : Option R :=
  ArcReference.deref h r

/-- `Display for ArcReference`. -/
def ArcReference.display {O R : Type} (h : Heap O) (r : ArcReference O R)
    (d : R → String) : Option String :=
  (ArcReference.deref h r).map d

/-- `Debug for ArcReference`. -/
def ArcReference.debugFmt {O R : Type} (h : Heap O) (r : ArcReference O R)
    (d : R → String) : Option String :=
  (ArcReference.deref h r).map d

/-- `ArcMultipleContext<'a, T>`. -/
structure ArcMultipleContext (O : Type) where
  inner : Nat

/-- `ArcMultipleContext::new_reference`. -/
def ArcMultipleContext.new_reference {O R : Type} (ctx : ArcMultipleContext O)
    (h : Heap O) (r : Nat × (O → R)) : Heap O × ArcReference O R :=
  (h.incr ctx.inner, { ptr := r, inner := ctx.inner })

/-- `arc_multiple`: same body as `rc_multiple`. -/
def arc_multiple {O R : Type} (h : Heap O) (a : Nat)
    (f : ArcMultipleContext O → (Nat × (O → O)) → Heap O → Heap O × R) :
    Option (Heap O × R) :=
  (h.lookup a).map fun _ => f { inner := a } (a, fun o => o) h

/-- Field-wise conversion between the two macro expansions (they have the same
representation). -/
def RcReference.toArc {O R : Type} (r : RcReference O R) : ArcReference O R :=
  { inner := r.inner, ptr := r.ptr }

/-- Whether `Arc<O>: Send`, in terms of `O`'s own markers; from the standard
library's conditional implementation requiring `O: Send + Sync`. -/
def arcSend (oSend oSync : Bool) : Bool := oSend && oSync

/-- Whether `Arc<O>: Sync`; the standard library likewise requires
`O: Send + Sync`. -/
def arcSync (oSend oSync : Bool) : Bool := oSend && oSync

/-- Whether `&R: Send`, which the language defines as `R: Sync`. -/
def sharedRefSend (rSync : Bool) : Bool := rSync

/-- Whether `&R: Sync`, which the language defines as `R: Sync`. -/
def sharedRefSync (rSync : Bool) : Bool := rSync

/-- The `unsafe impl Send for ArcReference<O, R>` with bounds `Arc<O>: Send`
and `for r. &r R: Send`: the capability is granted exactly when both bounds
hold (and through no other implementation, since the raw-pointer field
suppresses the automatic one). -/
def ArcReference.sendCapability (oSend oSync rSync : Bool) : Bool :=
  arcSend oSend oSync && sharedRefSend rSync

/-- The `unsafe impl Sync for ArcReference<O, R>` with bounds `Arc<O>: Sync`
and `for r. &r R: Sync`. -/
def ArcReference.syncCapability (oSend oSync rSync : Bool) : Bool :=
  arcSync oSend oSync && sharedRefSync rSync

/-- Rust byte-range slicing `&s[i..j]` specialised to ASCII content, where
bytes coincide with characters. -/
def sliceBytes (s : String) (i j : Nat) : String :=
  String.mk ((s.data.drop i).take (j - i))

/-- The formatting expression of the crate's tests: both references rendered
through their `Display` implementations with a single space in between. -/
def formatPair {O : Type} (h : Heap O) (r1 r2 : RcReference O String) : Option String :=
  (RcReference.display h r1 id).bind fun s1 =>
    (RcReference.display h r2 id).map fun s2 => s1 ++ " " ++ s2

/-- Heap after `Rc::new(String::from("Hello World!"))`: one allocation, strong
count 1. -/
def hwHeap1 : Heap String :=
  ⟨fun a => if a = 0 then some (1, "Hello World!") else none⟩

/-- The same allocation with strong count 2 (owner handle plus one clone). -/
def hwHeap2 : Heap String :=
  ⟨fun a => if a = 0 then some (2, "Hello World!") else none⟩

/-- The same allocation with strong count 3, as after the two `rc.clone()`
calls of the round-trip tests (original handle plus the two handles moved into
the references). -/
def hwHeap3 : Heap String :=
  ⟨fun a => if a = 0 then some (3, "Hello World!") else none⟩

/-- The owner struct of the multiple-derivation tests.  The `u8` and `u32`
fields are modelled as `Nat` (the test values 42 and 1024 are in range, and no
arithmetic is performed on them). -/
structure Foo where
  a : Nat
  b : Nat
  c : String

/-- Heap after `Rc::new(Foo { a: 42, b: 1024, c: String::from("Foo") })`. -/
def fooHeap : Heap Foo :=
  ⟨fun i => if i = 0 then some (1, ⟨42, 1024, "Foo"⟩) else none⟩

/-- The body of `test_multiple_rc`: derives references to the three fields of
the owner through the context, threading the heap through the three
`new_reference` calls. -/
def multiBody (ctx : RcMultipleContext Foo) (value : Nat × (Foo → Foo)) (h : Heap Foo) :
    Heap Foo × (RcReference Foo Nat × RcReference Foo Nat × RcReference Foo String) :=
  let ra := ctx.new_reference h (value.1, fun o => (value.2 o).a)
  let rb := ctx.new_reference ra.1 (value.1, fun o => (value.2 o).b)
  let rc2 := ctx.new_reference rb.1 (value.1, fun o => (value.2 o).c)
  (rc2.1, (ra.2, rb.2, rc2.2))

/-- The cell a cloned handle leaves at its own allocation: count incremented. -/
theorem Heap.cells_incr_self {O : Type} (h : Heap O) (a : Nat) :
    (h.incr a).cells a = (h.cells a).map (fun cv => (cv.1 + 1, cv.2)) := by
  simp [Heap.incr]

/-- The cell a dropped handle leaves at its own allocation: count decremented,
reclaimed at zero. -/
theorem Heap.cells_decr_self {O : Type} (h : Heap O) (a : Nat) :
    (h.decr a).cells a =
      (h.cells a).bind (fun cv => if cv.1 ≤ 1 then none else some (cv.1 - 1, cv.2)) := by
  simp [Heap.decr]

/-- Reading a live allocation yields its stored value. -/
theorem Heap.lookup_of_cells {O : Type} {h : Heap O} {a c : Nat} {v : O}
    (hc : h.cells a = some (c, v)) : h.lookup a = some v := by
  simp [Heap.lookup, hc]

/-- The count of a live allocation. -/
theorem Heap.count_of_cells {O : Type} {h : Heap O} {a c : Nat} {v : O}
    (hc : h.cells a = some (c, v)) : h.count a = c := by
  simp [Heap.count, hc]

/-- Dropping fewer handles than the current count keeps the allocation live,
with the count reduced accordingly and the value untouched. -/
theorem Heap.cells_decrN_of_lt {O : Type} (h : Heap O) (a : Nat) (v : O) :
    ∀ k c : Nat, h.cells a = some (c, v) → k < c →
      (h.decrN a k).cells a = some (c - k, v) := by
  intro k
  induction k with
  | zero => intro c hc _; simpa using hc
  | succ k ih =>
      intro c hc hlt
      have hk : k < c := Nat.lt_of_succ_lt hlt
      have h1 := ih c hc hk
      show ((h.decrN a k).decr a).cells a = _
      rw [Heap.cells_decr_self, h1]
      have h2 : ¬ (c - k ≤ 1) := by omega
      have h3 : c - k - 1 = c - (k + 1) := by omega
      simp [h2, h3]

/-- Dropping as many handles as the current count reclaims the allocation. -/
theorem Heap.cells_decrN_exhaust {O : Type} (h : Heap O) (a : Nat) (v : O) (c : Nat)
    (hc : h.cells a = some (c + 1, v)) : (h.decrN a (c + 1)).cells a = none := by
  have h1 : (h.decrN a c).cells a = some (c + 1 - c, v) :=
    Heap.cells_decrN_of_lt h a v c (c + 1) hc (by omega)
  have h2 : c + 1 - c = 1 := by omega
  rw [h2] at h1
  show ((h.decrN a c).decr a).cells a = none
  rw [Heap.cells_decr_self, h1]
  simp

/-- Dropping a handle to a reclaimed allocation leaves it reclaimed. -/
theorem Heap.cells_decr_none {O : Type} {h : Heap O} {a : Nat}
    (hc : h.cells a = none) : (h.decr a).cells a = none := by
  rw [Heap.cells_decr_self, hc]
  rfl

/-- A reclaimed allocation stays reclaimed under any further drops. -/
theorem Heap.cells_decrN_none {O : Type} {h : Heap O} {a : Nat}
    (hc : h.cells a = none) : ∀ k, (h.decrN a k).cells a = none := by
  intro k
  induction k with
  | zero => exact hc
  | succ k ih => exact Heap.cells_decr_none ih

/-- Iterated drops compose additively. -/
theorem Heap.decrN_add {O : Type} (h : Heap O) (a m : Nat) :
    ∀ n, h.decrN a (m + n) = (h.decrN a m).decrN a n := by
  intro n
  induction n with
  | zero => rfl
  | succ n ih =>
      show (h.decrN a (m + n)).decr a = ((h.decrN a m).decrN a n).decr a
      rw [ih]

/-- C1: constructing an owning reference executes the projection exactly once,
against the stored handle's value (the trace of projection arguments during
`new` is the singleton of the owner's value), and dereferencing the result
yields exactly the projection applied to the owner's value.  Concretely, for
owner "Hello World!" with byte projections 0..5 and 6..11, formatting the two
references with a space between them yields exactly "Hello World". -/
theorem C1_projection_once_and_deref :
    (∀ (O R : Type) (h : Heap O) (a : Nat) (v : O) (p : O → R),
        h.lookup a = some v →
          RcReference.newProjArgs h a = [v] ∧
          RcReference.deref h (RcReference.new a p) = some (p v)) ∧
    formatPair hwHeap3 (RcReference.new 0 (fun s => sliceBytes s 0 5))
      (RcReference.new 0 (fun s => sliceBytes s 6 11)) = some "Hello World" := by
  refine ⟨?_, by decide⟩
  intro O R h a v p hv
  constructor
  · simp [RcReference.newProjArgs, hv]
  · simp [RcReference.deref, RcReference.new, hv]

/-- Witness for C1 at the concrete owner of the round-trip test. -/
theorem C1_projection_once_and_deref_witness :
    RcReference.newProjArgs hwHeap3 0 = ["Hello World!"] ∧
    RcReference.deref hwHeap3 (RcReference.new 0 (fun s => sliceBytes s 0 5)) =
      some (sliceBytes "Hello World!" 0 5) :=
  C1_projection_once_and_deref.1 String String hwHeap3 0 "Hello World!"
    (fun s => sliceBytes s 0 5) rfl

/-- C2: with the owner allocation holding `c + 1` handles of which the owning
reference owns one, dropping any number of the other handles leaves the
reference dereferencing to the projection of the owner's value and the
allocation live; the allocation is reclaimed exactly at the drop of the last
surviving handle and stays reclaimed thereafter. -/
theorem C2_liveness_after_origin_drop {O R : Type} (h : Heap O) (a c : Nat) (v : O)
    (p : O → R) (hcell : h.cells a = some (c + 1, v)) :
    (∀ k, k ≤ c → ArcReference.deref (h.decrN a k) (ArcReference.new a p) = some (p v)) ∧
    (∀ k, k ≤ c → (h.decrN a k).lookup a = some v) ∧
    ((h.decrN a (c + 1)).lookup a = none) ∧
    (∀ k, (h.decrN a (c + 1 + k)).lookup a = none) := by
  have hlive : ∀ k, k ≤ c → (h.decrN a k).cells a = some (c + 1 - k, v) := by
    intro k hk
    exact Heap.cells_decrN_of_lt h a v k (c + 1) hcell (by omega)
  have hnone : (h.decrN a (c + 1)).cells a = none :=
    Heap.cells_decrN_exhaust h a v c hcell
  refine ⟨?_, ?_, ?_, ?_⟩
  · intro k hk
    simp [ArcReference.deref, ArcReference.new, Heap.lookup, hlive k hk]
  · intro k hk
    simp [Heap.lookup, hlive k hk]
  · simp [Heap.lookup, hnone]
  · intro k
    rw [Heap.decrN_add h a (c + 1) k]
    simp [Heap.lookup, Heap.cells_decrN_none hnone k]

/-- Witness for C2: the `drop_arc` scenario, owner "Hello World!" with three
handles; after dropping the two others the reference still reads "Hello", and
the third drop reclaims the allocation. -/
theorem C2_liveness_after_origin_drop_witness :
    ArcReference.deref (hwHeap3.decrN 0 2)
      (ArcReference.new 0 (fun s => sliceBytes s 0 5)) =
        some (sliceBytes "Hello World!" 0 5) ∧
    (hwHeap3.decrN 0 3).lookup 0 = none := by
  have H := C2_liveness_after_origin_drop hwHeap3 0 2 "Hello World!"
    (fun s => sliceBytes s 0 5) rfl
  exact ⟨H.1 2 (by omega), H.2.2.1⟩

/-- C3 counterexample: `source` does not return a clone of the underlying
counted owner handle.  Its body is the borrow expression of the stored handle
and leaves the owner's strong count untouched, whereas a handle clone (what
`Clone for RcReference` performs) increments the count: on a heap with strong
count 2, the count after `source` is 2 but after a clone it is 3. -/
theorem C3_counterexample :
    (RcReference.source hwHeap2
        (RcReference.new 0 (fun s => sliceBytes s 0 5))).1.count 0 = 2 ∧
    (RcReference.clone hwHeap2
        (RcReference.new 0 (fun s => sliceBytes s 0 5))).1.count 0 = 3 ∧
    (RcReference.source hwHeap2
        (RcReference.new 0 (fun s => sliceBytes s 0 5))).1.count 0 ≠
      (RcReference.clone hwHeap2
        (RcReference.new 0 (fun s => sliceBytes s 0 5))).1.count 0 :=
  ⟨by decide, by decide, by decide⟩

/-- C3 amended: `source` returns (a borrow of) the underlying counted owner
handle without cloning it; cloning the returned handle lets a caller derive
further owning references from the same owner after the original owner handle
has been dropped, and the old and the newly derived references both remain
independently valid. -/
theorem C3_rederivation {O R1 R2 : Type} (h : Heap O) (a c : Nat) (v : O)
    (p : O → R1) (q : O → R2) (hcell : h.cells a = some (c + 2, v)) :
    (RcReference.source (h.decr a) (RcReference.new a p)).2 = a ∧
    RcReference.deref ((h.decr a).incr a) (RcReference.new a p) = some (p v) ∧
    RcReference.deref ((h.decr a).incr a) (RcReference.new a q) = some (q v) := by
  have h1 : (h.decr a).cells a = some (c + 1, v) := by
    rw [Heap.cells_decr_self, hcell]
    have hgt : ¬ (c + 2 ≤ 1) := by omega
    simp [hgt]
  have h2 : ((h.decr a).incr a).cells a = some (c + 2, v) := by
    rw [Heap.cells_incr_self, h1]
    rfl
  refine ⟨rfl, ?_, ?_⟩ <;>
    simp [RcReference.deref, RcReference.new, Heap.lookup, h2]

/-- Witness for C3 (amended): the `access_source` scenario on the concrete
owner, re-deriving the disjoint slice 6..11 after the original handle drop. -/
theorem C3_rederivation_witness :
    (RcReference.source (hwHeap2.decr 0)
        (RcReference.new 0 (fun s => sliceBytes s 0 5))).2 = 0 ∧
    RcReference.deref ((hwHeap2.decr 0).incr 0)
      (RcReference.new 0 (fun s => sliceBytes s 0 5)) =
        some (sliceBytes "Hello World!" 0 5) ∧
    RcReference.deref ((hwHeap2.decr 0).incr 0)
      (RcReference.new 0 (fun s => sliceBytes s 6 11)) =
        some (sliceBytes "Hello World!" 6 11) :=
  C3_rederivation hwHeap2 0 0 "Hello World!" (fun s => sliceBytes s 0 5)
    (fun s => sliceBytes s 6 11) rfl

/-- C4: the `Send` capability of the thread-safe owning reference is granted
exactly when both `Arc<O>: Send` and `&R: Send` hold, and the `Sync` capability
exactly when `Arc<O>: Sync` and `&R: Sync` hold; each capability genuinely
depends on both of its sub-conditions (there are marker assignments under which
it is denied), so neither is asserted unconditionally. -/
theorem C4_send_sync_derived :
    (∀ oS oY rY : Bool,
      (ArcReference.sendCapability oS oY rY = true ↔
        (arcSend oS oY = true ∧ sharedRefSend rY = true)) ∧
      (ArcReference.syncCapability oS oY rY = true ↔
        (arcSync oS oY = true ∧ sharedRefSync rY = true))) ∧
    ArcReference.sendCapability false true true = false ∧
    ArcReference.sendCapability true true false = false ∧
    ArcReference.syncCapability false true true = false ∧
    ArcReference.syncCapability true true false = false := by
  refine ⟨?_, by decide, by decide, by decide, by decide⟩
  intro oS oY rY
  exact ⟨Iff.of_eq (Bool.and_eq_true _ _), Iff.of_eq (Bool.and_eq_true _ _)⟩

/-- C5: one multiple-context run over the owner struct with fields 42, 1024,
"Foo" yields exactly three owning references to the three fields (each carrying
its own clone of the owner handle); after dropping the original owner handle,
the three references dereference to 42, 1024 and "Foo".  Dereferencing does not
modify the heap (it returns only the read value), so the three reads are
independent and their order is irrelevant. -/
theorem C5_multi_derivation :
    rc_multiple fooHeap 0 multiBody =
      some (((fooHeap.incr 0).incr 0).incr 0,
        ({ inner := 0, ptr := (0, fun o => o.a) },
         { inner := 0, ptr := (0, fun o => o.b) },
         { inner := 0, ptr := (0, fun o => o.c) })) ∧
    RcReference.deref ((((fooHeap.incr 0).incr 0).incr 0).decr 0)
      { inner := 0, ptr := (0, fun o => o.a) } = some 42 ∧
    RcReference.deref ((((fooHeap.incr 0).incr 0).incr 0).decr 0)
      { inner := 0, ptr := (0, fun o => o.b) } = some 1024 ∧
    RcReference.deref ((((fooHeap.incr 0).incr 0).incr 0).decr 0)
      { inner := 0, ptr := (0, fun o => o.c) } = some "Foo" :=
  ⟨rfl, rfl, rfl, rfl⟩

/-- C6: the multiple-run operations return exactly the value the body produces
when applied to a context bound to the borrowed owner handle and to the direct
reference to the owner's value; they cannot fail: whenever the borrowed handle
is live (which holding `&Rc<T>`/`&Arc<T>` guarantees), the result is `some`. -/
theorem C6_run_returns_body_result {O R1 R2 : Type} (h : Heap O) (a : Nat) (v : O)
    (f : RcMultipleContext O → (Nat × (O → O)) → Heap O → Heap O × R1)
    (g : ArcMultipleContext O → (Nat × (O → O)) → Heap O → Heap O × R2)
    (hv : h.lookup a = some v) :
    rc_multiple h a f = some (f { inner := a } (a, fun o => o) h) ∧
    arc_multiple h a g = some (g { inner := a } (a, fun o => o) h) := by
  constructor <;> simp [rc_multiple, arc_multiple, hv]

/-- Witness for C6 on the concrete "Hello World!" owner with trivial bodies. -/
theorem C6_run_returns_body_result_witness :
    rc_multiple hwHeap1 0 (fun _ _ h2 => (h2, (42 : Nat))) = some (hwHeap1, 42) ∧
    arc_multiple hwHeap1 0 (fun _ _ h2 => (h2, (7 : Nat))) = some (hwHeap1, 7) := by
  have H := C6_run_returns_body_result hwHeap1 0 "Hello World!"
    (fun _ _ h2 => (h2, (42 : Nat))) (fun _ _ h2 => (h2, (7 : Nat))) rfl
  exact ⟨H.1, H.2⟩

/-- C7: cloning an owning reference duplicates the owner handle (incrementing
the allocation's strong count) and copies the stored address unchanged, so the
clone dereferences to the same value; after dropping the original, the clone
still dereferences to the projection of the owner's value, and the owner is
reclaimed only after the clone, the original and all other handles are gone. -/
theorem C7_clone_independence {O R : Type} (h : Heap O) (r : RcReference O R)
    (c : Nat) (v : O) (hcell : h.cells r.inner = some (c + 1, v))
    (hptr : r.ptr.1 = r.inner) :
    ((RcReference.clone h r).2.inner = r.inner) ∧
    ((RcReference.clone h r).2.ptr = r.ptr) ∧
    ((RcReference.clone h r).1.count r.inner = c + 2) ∧
    (RcReference.deref (RcReference.clone h r).1 (RcReference.clone h r).2 =
      RcReference.deref (RcReference.clone h r).1 r) ∧
    (RcReference.deref ((RcReference.clone h r).1.decr r.inner)
        (RcReference.clone h r).2 = some (r.ptr.2 v)) ∧
    (((RcReference.clone h r).1.decrN r.inner (c + 1)).lookup r.inner = some v) ∧
    (((RcReference.clone h r).1.decrN r.inner (c + 2)).lookup r.inner = none) := by
  have hcell2 : (h.incr r.inner).cells r.inner = some (c + 2, v) := by
    rw [Heap.cells_incr_self, hcell]
    rfl
  have hdecr : ((h.incr r.inner).decr r.inner).cells r.inner = some (c + 1, v) := by
    rw [Heap.cells_decr_self, hcell2]
    have hgt : ¬ (c + 2 ≤ 1) := by omega
    simp [hgt]
  have hlive : ((h.incr r.inner).decrN r.inner (c + 1)).cells r.inner = some (1, v) := by
    have h1 := Heap.cells_decrN_of_lt (h.incr r.inner) r.inner v (c + 1) (c + 2)
      hcell2 (by omega)
    have h2 : c + 2 - (c + 1) = 1 := by omega
    rw [h2] at h1
    exact h1
  refine ⟨rfl, rfl, Heap.count_of_cells hcell2, rfl, ?_, ?_, ?_⟩
  · simp [RcReference.clone, RcReference.deref, Heap.lookup, hptr, hdecr]
  · simp [RcReference.clone, Heap.lookup, hlive]
  · simp [RcReference.clone, Heap.lookup,
      Heap.cells_decrN_exhaust (h.incr r.inner) r.inner v (c + 1) hcell2]

/-- Witness for C7 on the concrete "Hello World!" owner with a single handle. -/
theorem C7_clone_independence_witness :
    ((RcReference.clone hwHeap1
        (RcReference.new 0 (fun s => sliceBytes s 0 5))).1.count 0 = 2) ∧
    (RcReference.deref
        ((RcReference.clone hwHeap1
            (RcReference.new 0 (fun s => sliceBytes s 0 5))).1.decr 0)
        (RcReference.clone hwHeap1
            (RcReference.new 0 (fun s => sliceBytes s 0 5))).2 =
      some (sliceBytes "Hello World!" 0 5)) := by
  have H := C7_clone_independence hwHeap1
    (RcReference.new 0 (fun s => sliceBytes s 0 5)) 0 "Hello World!" rfl rfl
  exact ⟨H.2.2.1, H.2.2.2.2.1⟩

/-- C8: every public operation of the core is a total function; the partiality
of reads and runs is only the handle-liveness precondition that safe callers
satisfy, and the unchecked non-null assertion inside construction and
derivation can never be violated, because the pointers it receives are cast
from references and a reference always yields a non-null address. -/
theorem C8_total_and_nonnull :
    (∀ (O R : Type) (r : Nat × (O → R)),
        nonNullNewUnchecked (refAsRawPtr r) = some r) ∧
    (∀ (O R : Type) (a : Nat) (f : O → R),
        nonNullNewUnchecked (refAsRawPtr (a, f)) = some (RcReference.new a f).ptr) ∧
    (∀ (O R : Type) (h : Heap O) (ctx : RcMultipleContext O) (r : Nat × (O → R)),
        nonNullNewUnchecked (refAsRawPtr r) = some ((ctx.new_reference h r).2.ptr)) ∧
    (∀ (O R : Type) (h : Heap O) (r : RcReference O R) (v : O),
        h.lookup r.ptr.1 = some v → RcReference.deref h r = some (r.ptr.2 v)) ∧
    (∀ (O R : Type) (h : Heap O) (r : RcReference O R) (v : O) (d : R → String),
        h.lookup r.ptr.1 = some v →
          RcReference.display h r d = some (d (r.ptr.2 v))) ∧
    (∀ (O R : Type) (h : Heap O) (a : Nat) (v : O)
        (f : RcMultipleContext O → (Nat × (O → O)) → Heap O → Heap O × R),
        h.lookup a = some v → ∃ x, rc_multiple h a f = some x) := by
  refine ⟨fun O R r => rfl, fun O R a f => rfl, fun O R h ctx r => rfl, ?_, ?_, ?_⟩
  · intro O R h r v hv
    simp [RcReference.deref, hv]
  · intro O R h r v d hv
    simp [RcReference.display, RcReference.deref, hv]
  · intro O R h a v f hv
    exact ⟨f { inner := a } (a, fun o => o) h, by simp [rc_multiple, hv]⟩

/-- Witness for C8 on concrete inputs. -/
theorem C8_total_and_nonnull_witness :
    nonNullNewUnchecked
        (refAsRawPtr ((0, fun s => sliceBytes s 0 5) : Nat × (String → String))) =
      some (0, fun s => sliceBytes s 0 5) ∧
    RcReference.deref hwHeap1 (RcReference.new 0 (fun s => sliceBytes s 0 5)) =
      some (sliceBytes "Hello World!" 0 5) ∧
    (∃ x, rc_multiple fooHeap 0 multiBody = some x) := by
  refine ⟨C8_total_and_nonnull.1 String String (0, fun s => sliceBytes s 0 5), ?_, ?_⟩
  · exact C8_total_and_nonnull.2.2.2.1 String String hwHeap1
      (RcReference.new 0 (fun s => sliceBytes s 0 5)) "Hello World!" rfl
  · exact C8_total_and_nonnull.2.2.2.2.2 Foo
      (RcReference Foo Nat × RcReference Foo Nat × RcReference Foo String)
      fooHeap 0 ⟨42, 1024, "Foo"⟩ multiBody rfl

/-- C9: every owning reference minted through a multiple-context stores as its
owner handle exactly the allocation the context was bound to (never a
different allocation), and each derivation takes a fresh clone of that handle,
incrementing the allocation's strong count; this holds for both the `Rc` and
the `Arc` expansion. -/
theorem C9_context_single_origin {O R : Type} (h : Heap O)
    (ctxR : RcMultipleContext O) (ctxA : ArcMultipleContext O)
    (r : Nat × (O → R)) (c : Nat) (v : O)
    (hR : h.cells ctxR.inner = some (c, v)) (hA : h.cells ctxA.inner = some (c, v)) :
    ((ctxR.new_reference h r).2.inner = ctxR.inner ∧
      (ctxR.new_reference h r).1.count ctxR.inner = c + 1) ∧
    ((ctxA.new_reference h r).2.inner = ctxA.inner ∧
      (ctxA.new_reference h r).1.count ctxA.inner = c + 1) := by
  have hR2 : (h.incr ctxR.inner).cells ctxR.inner = some (c + 1, v) := by
    rw [Heap.cells_incr_self, hR]
    rfl
  have hA2 : (h.incr ctxA.inner).cells ctxA.inner = some (c + 1, v) := by
    rw [Heap.cells_incr_self, hA]
    rfl
  exact ⟨⟨rfl, Heap.count_of_cells hR2⟩, ⟨rfl, Heap.count_of_cells hA2⟩⟩

/-- Witness for C9 on the concrete owner struct heap. -/
theorem C9_context_single_origin_witness :
    ((RcMultipleContext.new_reference ⟨0⟩ fooHeap
        ((0, fun o => Foo.a o) : Nat × (Foo → Nat))).2.inner = 0 ∧
      (RcMultipleContext.new_reference ⟨0⟩ fooHeap
        ((0, fun o => Foo.a o) : Nat × (Foo → Nat))).1.count 0 = 2) ∧
    ((ArcMultipleContext.new_reference ⟨0⟩ fooHeap
        ((0, fun o => Foo.a o) : Nat × (Foo → Nat))).2.inner = 0 ∧
      (ArcMultipleContext.new_reference ⟨0⟩ fooHeap
        ((0, fun o => Foo.a o) : Nat × (Foo → Nat))).1.count 0 = 2) :=
  C9_context_single_origin fooHeap ⟨0⟩ ⟨0⟩ (0, fun o => Foo.a o) 1
    ⟨42, 1024, "Foo"⟩ rfl rfl

/-- C10: the `Rc` and `Arc` expansions of the macro are behaviourally
equivalent: under the field-wise conversion between the two reference types,
every operation (new, source, clone, deref, as_ref, display and debug
formatting, the projection trace of new, context derivation and the
multiple-run function) computes the same result in both variants on the same
inputs. -/
theorem C10_rc_arc_equivalence :
    (∀ (O R : Type) (a : Nat) (f : O → R),
        (RcReference.new a f).toArc = ArcReference.new a f) ∧
    (∀ (O R : Type) (h : Heap O) (r : RcReference O R),
        ArcReference.source h r.toArc = RcReference.source h r) ∧
    (∀ (O R : Type) (h : Heap O) (r : RcReference O R),
        ArcReference.deref h r.toArc = RcReference.deref h r) ∧
    (∀ (O R : Type) (h : Heap O) (r : RcReference O R),
        ArcReference.as_ref h r.toArc = RcReference.as_ref h r) ∧
    (∀ (O R : Type) (h : Heap O) (r : RcReference O R) (d : R → String),
        ArcReference.display h r.toArc d = RcReference.display h r d) ∧
    (∀ (O R : Type) (h : Heap O) (r : RcReference O R) (d : R → String),
        ArcReference.debugFmt h r.toArc d = RcReference.debugFmt h r d) ∧
    (∀ (O R : Type) (h : Heap O) (r : RcReference O R),
        (ArcReference.clone h r.toArc).1 = (RcReference.clone h r).1 ∧
        (ArcReference.clone h r.toArc).2 = (RcReference.clone h r).2.toArc) ∧
    (∀ (O R : Type) (i : Nat) (h : Heap O) (r : Nat × (O → R)),
        (ArcMultipleContext.new_reference ⟨i⟩ h r).1 =
          (RcMultipleContext.new_reference ⟨i⟩ h r).1 ∧
        (ArcMultipleContext.new_reference ⟨i⟩ h r).2 =
          (RcMultipleContext.new_reference ⟨i⟩ h r).2.toArc) ∧
    (∀ (O : Type) (h : Heap O) (a : Nat),
        ArcReference.newProjArgs h a = RcReference.newProjArgs h a) ∧
    (∀ (O R : Type) (h : Heap O) (a : Nat)
        (f : ArcMultipleContext O → (Nat × (O → O)) → Heap O → Heap O × R),
        arc_multiple h a f = rc_multiple h a (fun ctx => f ⟨ctx.inner⟩)) :=
  ⟨fun _ _ _ _ => rfl, fun _ _ _ _ => rfl, fun _ _ _ _ => rfl, fun _ _ _ _ => rfl,
   fun _ _ _ _ _ => rfl, fun _ _ _ _ _ => rfl, fun _ _ _ _ => ⟨rfl, rfl⟩,
   fun _ _ _ _ _ => ⟨rfl, rfl⟩, fun _ _ _ => rfl, fun _ _ _ _ _ => rfl⟩

end ArcRef
